import Mathlib

/-!
# Verification of the echo-app SRS / tutoring-session core

Shallow embedding of the SRS scheduler and tutoring-session engine of the
`echo-app` backend (`backend/app/srs/*.py`, `backend/app/agents/*.py`,
`backend/app/routers/learn.py`), together with theorems settling the frozen
claims about it.

Modelling conventions:
* Python `int` is unbounded, embedded as `Int` / `Nat`.
* Python `float` arithmetic in the SM-2 update is idealized as exact rational
  arithmetic (`ℚ`); the formulas involved are the spec's real-number formulas.
* Python `datetime` objects are embedded structurally as their civil fields
  (proleptic Gregorian calendar) plus an optional fixed UTC offset; the year
  is an unbounded `Int`, idealizing Python's 1..9999 range (theorems that
  depend on formatting carry explicit in-range hypotheses).
* Fallible Python code (`raise ValueError`) is embedded as `Except String _`.
-/

namespace EchoApp

/-! ## Grades (`backend/app/srs/grading.py`, `Grade` literal type) -/

inductive Grade
  | again
  | hard
  | good
  | easy
deriving DecidableEq, Repr

/-- The runtime string of a `Grade` literal. -/
def Grade.toStr : Grade → String
  | .again => "again"
  | .hard => "hard"
  | .good => "good"
  | .easy => "easy"

/-- `True` on `Except.error`, mirroring a raised Python exception. -/
def isError {α : Type} : Except String α → Bool
  | .error _ => true
  | .ok _ => false

/-! ## Grade heuristic (`backend/app/srs/grading.py`, `compute_grade`) -/

/-- `compute_grade(revealed, attempt_count)`: derives the coarse grade from
session-observable signals.  Raises `ValueError` when `attempt_count < 1`. -/
def compute_grade (revealed : Bool) (attempt_count : Int) : Except String Grade :=
  if attempt_count < 1 then
    .error "attempt_count must be >= 1"
  else if revealed then
    .ok .again
  else if attempt_count = 1 then
    .ok .easy
  else if attempt_count > 3 then
    .ok .hard
  else
    .ok .good

/-! ## Interval model (`backend/app/srs/sm2.py`) -/

structure SM2State where
  ease_factor : ℚ
  repetitions : ℤ
  interval_days : ℤ
deriving DecidableEq, Repr

/-- `_clamp_ease_factor`: `max(1.3, ef)`. -/
def _clamp_ease_factor (ef : ℚ) : ℚ := max 1.3 ef

/-- Python's `round` (banker's rounding: ties go to the even integer). -/
def pythonRound (x : ℚ) : ℤ :=
  let f : ℤ := ⌊x⌋
  let frac : ℚ := x - f
  if frac < 1/2 then f
  else if 1/2 < frac then f + 1
  else if f % 2 = 0 then f else f + 1

/-- `apply_sm2(state, quality)`: the SM-2 state update.
Raises `ValueError` unless `0 ≤ quality ≤ 5`. -/
def apply_sm2 (state : SM2State) (quality : ℤ) : Except String SM2State :=
  if quality < 0 ∨ quality > 5 then
    .error "quality must be between 0 and 5"
  else
    let ef := state.ease_factor
    let reps := state.repetitions
    let interval := state.interval_days
    let ef_prime := _clamp_ease_factor
      (ef + (1/10 - ((5 : ℚ) - quality) * (8/100 + ((5 : ℚ) - quality) * (2/100))))
    if quality < 3 then
      .ok ⟨ef_prime, 0, 1⟩
    else
      let reps_prime := reps + 1
      let interval_prime : ℤ :=
        if reps_prime = 1 then 1
        else if reps_prime = 2 then 6
        else max 1 (pythonRound ((interval : ℚ) * ef_prime))
      .ok ⟨ef_prime, reps_prime, interval_prime⟩

/-- Reference SM-2 algorithm, written from the spec's words (§4.1):
`ef' = easeFactor + (0.1 − (5−q)·(0.08 + (5−q)·0.02))` clamped below at 1.3;
`q < 3`: `repetitions' = 0`, `intervalDays' = 1`; else `repetitions' = repetitions + 1`
and `intervalDays' = 1 / 6 / max(1, round(intervalDays·ef'))` according to
`repetitions' = 1 / 2 / otherwise`. -/
def sm2_reference (state : SM2State) (q : ℤ) : SM2State :=
  let efRaw : ℚ :=
    state.ease_factor + (1/10 - ((5 : ℚ) - q) * (8/100 + ((5 : ℚ) - q) * (2/100)))
  let ef' : ℚ := max efRaw 1.3
  if q < 3 then
    ⟨ef', 0, 1⟩
  else
    let reps' := state.repetitions + 1
    ⟨ef', reps',
      if reps' = 1 then 1
      else if reps' = 2 then 6
      else max 1 (pythonRound ((state.interval_days : ℚ) * ef'))⟩

/-! ## Session state (`backend/app/agents/session_store.py`) -/

structure ChatMessage where
  role : String
  content : String
deriving DecidableEq, Repr

inductive Mode
  | card
  | free
deriving DecidableEq, Repr

/-- `AgentSessionState`: per (user, deck) tutoring-session state. -/
structure AgentSessionState where
  ui_conversation_id : String
  created_at : String
  mode : Mode := .card
  card_id : Option String := none
  attempt_count : ℤ := 0
  resolved_at : Option String := none
  last_grade : Option Grade := none
  agent_context_messages : List ChatMessage := []
  explicit_reveal_request_count : ℤ := 0
  revealed : Bool := false
  is_correct : Bool := false
deriving DecidableEq, Repr

def CARD_MODE_MAX_MESSAGES : ℕ := 6

def FREE_MODE_MAX_MESSAGES : ℕ := 10

/-- Python's `l[-n:]` for `n ≥ 1`: the last `n` elements. -/
def lastN {α : Type} (n : ℕ) (l : List α) : List α := l.drop (l.length - n)

structure AddMessageResult where
  window_rolled_over : Bool
deriving DecidableEq, Repr

/-- `AgentSessionState.add_message`: append a message; in card mode trim the
history to the last 6 entries, in free mode trim to the last 10 and report
`window_rolled_over = true` exactly when that trim occurred. -/
def add_message (s : AgentSessionState) (role content : String) :
    AgentSessionState × AddMessageResult :=
  let msgs := s.agent_context_messages ++ [⟨role, content⟩]
  match s.mode with
  | .card =>
      if msgs.length > CARD_MODE_MAX_MESSAGES then
        ({ s with agent_context_messages := lastN CARD_MODE_MAX_MESSAGES msgs }, ⟨false⟩)
      else
        ({ s with agent_context_messages := msgs }, ⟨false⟩)
  | .free =>
      if msgs.length > FREE_MODE_MAX_MESSAGES then
        ({ s with agent_context_messages := lastN FREE_MODE_MAX_MESSAGES msgs }, ⟨true⟩)
      else
        ({ s with agent_context_messages := msgs }, ⟨false⟩)

/-- `AgentSessionState.reset_agent_context`: clear history and per-card counters. -/
def reset_agent_context (s : AgentSessionState) : AgentSessionState :=
  { s with
    agent_context_messages := []
    attempt_count := 0
    resolved_at := none
    explicit_reveal_request_count := 0
    revealed := false
    is_correct := false }

/-- `AgentSessionState.start_card`: switch to card mode on `card_id` and reset
the per-card counters and history. -/
def start_card (s : AgentSessionState) (cardId : String) : AgentSessionState :=
  reset_agent_context { s with mode := .card, card_id := some cardId }

/-- `AgentSessionState.start_free_mode`: switch to free mode (no active card). -/
def start_free_mode (s : AgentSessionState) : AgentSessionState :=
  reset_agent_context { s with mode := .free, card_id := none }

/-- `_generate_conversation_id`: deterministic UUID5 of
`user_id:deck_id:created_at`, modelled as the tagged concatenation itself
(all that matters here is that it is a deterministic function of the inputs). -/
def _generate_conversation_id (user_id deck_id created_at : String) : String :=
  "uuid5:" ++ user_id ++ ":" ++ deck_id ++ ":" ++ created_at

/-! ## Session store (`backend/app/agents/session_store.py`, `SessionStore`)

The `cachetools.TTLCache` is modelled as a map from keys to entries carrying
an explicit expiry instant; every operation takes the current time `now`
(seconds) and treats entries whose expiry has passed as absent.  Capacity
eviction is not needed by any claim and is omitted. -/

def DEFAULT_TTL_SECONDS : ℤ := 30 * 60

structure StoreEntry where
  state : AgentSessionState
  expires_at : ℤ

structure SessionStore where
  ttl_seconds : ℤ := DEFAULT_TTL_SECONDS
  entries : String × String → Option StoreEntry

/-- Lookup respecting TTL: an entry is visible only while `now < expires_at`. -/
def SessionStore.lookup (st : SessionStore) (key : String × String) (now : ℤ) :
    Option AgentSessionState :=
  match st.entries key with
  | none => none
  | some e => if now < e.expires_at then some e.state else none

/-- Write-back with a fresh sliding TTL. -/
def SessionStore.put (st : SessionStore) (key : String × String)
    (s : AgentSessionState) (now : ℤ) : SessionStore :=
  { st with entries := fun k =>
      if k = key then some ⟨s, now + st.ttl_seconds⟩ else st.entries k }

/-- `SessionStore._create_session`: fresh state, then `start_card` /
`start_free_mode` according to whether a card id was supplied.
`created_at` is the ISO rendering of `now`, abstracted as its string. -/
def _create_session (user_id deck_id : String) (card_id : Option String)
    (created_at : String) : AgentSessionState :=
  let state : AgentSessionState :=
    { ui_conversation_id := _generate_conversation_id user_id deck_id created_at
      created_at := created_at }
  match card_id with
  | some cid => start_card state cid
  | none => start_free_mode state

/-- `SessionStore.get_or_create`: return the existing session (restarting it on
`card_id` when the active card differs, refreshing the TTL otherwise), or
create a fresh card-mode session. -/
def SessionStore.get_or_create (st : SessionStore) (user_id deck_id card_id : String)
    (now : ℤ) (created_at : String) : AgentSessionState × SessionStore :=
  let key := (user_id, deck_id)
  match st.lookup key now with
  | none =>
      let s := _create_session user_id deck_id (some card_id) created_at
      (s, st.put key s now)
  | some s =>
      if s.card_id ≠ some card_id then
        let s' := start_card s card_id
        (s', st.put key s' now)
      else
        (s, st.put key s now)

/-- `SessionStore.get_or_create_session`: like `get_or_create` but the card id
is optional; `none` leaves the current card state untouched. -/
def SessionStore.get_or_create_session (st : SessionStore) (user_id deck_id : String)
    (card_id : Option String) (now : ℤ) (created_at : String) :
    AgentSessionState × SessionStore :=
  let key := (user_id, deck_id)
  match st.lookup key now with
  | none =>
      let s := _create_session user_id deck_id card_id created_at
      (s, st.put key s now)
  | some s =>
      match card_id with
      | some cid =>
          if s.card_id ≠ some cid then
            let s' := start_card s cid
            (s', st.put key s' now)
          else
            (s, st.put key s now)
      | none => (s, st.put key s now)

/-! ## Verdict collaborator client (`backend/app/agents/foundry_client.py`) -/

/-- `AgentVerdict`: structured verdict parsed from the collaborator output. -/
structure AgentVerdict where
  isCorrect : Bool
  revealed : Bool
  canGrade : Bool
  feedback : String
  normalizationNotes : Option String := none
deriving DecidableEq, Repr

/-- `AgentResponse`: the client's response record. -/
structure AgentResponse where
  feedback : String
  is_correct : Bool
  revealed : Bool
  can_grade : Bool
  normalization_notes : Option String := none
deriving DecidableEq, Repr

/-- `AgentResponse.from_verdict`. -/
def AgentResponse.from_verdict (v : AgentVerdict) : AgentResponse :=
  ⟨v.feedback, v.isCorrect, v.revealed, v.canGrade, v.normalizationNotes⟩

/-- `AgentResponse.error_response`: degraded response when the agent call fails. -/
def AgentResponse.error_response (message : String) : AgentResponse :=
  ⟨message, false, false, false, none⟩

/-- Word characters of the regex `\b` boundaries (ASCII `\w`). -/
def isWordChar (c : Char) : Bool := c.isAlphanum || c = '_'

/-- Split a character stream into maximal word-character runs. -/
def splitWordsAux : List Char → List Char → List (List Char)
  | [], acc => if acc.isEmpty then [] else [acc.reverse]
  | c :: rest, acc =>
      if isWordChar c then splitWordsAux rest (c :: acc)
      else if acc.isEmpty then splitWordsAux rest []
      else acc.reverse :: splitWordsAux rest []

/-- The whole-word tokens of a message, lowercased (ASCII model of
`message.lower().strip()` followed by `\b`-delimited matching). -/
def wordsOf (s : String) : List String :=
  (splitWordsAux (s.toList.map Char.toLower) []).map fun w => String.mk w

/-- Subsequence test: all of `pat` occurs, in order, among `ws`. -/
def isSubseqOf : List String → List String → Bool
  | [], _ => true
  | _ :: _, [] => false
  | p :: ps, w :: ws => if p = w then isSubseqOf ps ws else isSubseqOf (p :: ps) ws

/-- The reveal-request patterns of `_is_explicit_reveal_request`, each regex
`\bw1\b.*\bw2\b...` rendered as the word sequence it requires in order.
(The regex `.` not matching newlines is not modelled; all claim inputs are
single-line.) -/
def reveal_patterns : List (List String) :=
  [["reveal", "answer"],
   ["show", "me", "answer"],
   ["tell", "me", "answer"],
   ["give", "me", "answer"],
   ["just", "tell", "me"],
   ["what", "is", "the", "answer"]]

/-- `_is_explicit_reveal_request(message)`: does the message match one of the
explicit reveal-request patterns? -/
def _is_explicit_reveal_request (message : String) : Bool :=
  reveal_patterns.any fun p => isSubseqOf p (wordsOf message)

/-- Python `str.strip()` (ASCII whitespace model). -/
def pyStrip (s : String) : String :=
  String.mk (((s.toList.dropWhile Char.isWhitespace).reverse.dropWhile
    Char.isWhitespace).reverse)

/-- `FoundryAgentClient._fallback_response(raw, should_reveal)`: degraded
verdict when the collaborator output cannot be parsed.  Note that `revealed`
and `can_grade` are set to the reveal-threshold flag, not to `false`, and the
feedback is the (trimmed, truncated) raw output unless it is empty. -/
def _fallback_response (raw : String) (should_reveal : Bool) : AgentResponse :=
  let feedback := pyStrip raw
  let feedback :=
    if 500 < feedback.toList.length then String.mk (feedback.toList.take 500) ++ "..."
    else feedback
  let feedback :=
    if feedback = "" then "Please try again with your answer." else feedback
  { feedback := feedback
    is_correct := false
    revealed := should_reveal
    can_grade := should_reveal
    normalization_notes := some "Fallback: could not parse structured response" }

/-- `FoundryAgentClient._parse_response`: the JSON-extraction pipeline
(direct `json.loads`, markdown code-fence extraction, brace extraction, then
pydantic validation) is abstracted into the `parsed` argument: `some v` means
the pipeline produced a structured verdict, `none` that every attempt failed. -/
def _parse_response (raw : String) (parsed : Option AgentVerdict)
    (should_reveal : Bool) : AgentResponse :=
  match parsed with
  | some v => AgentResponse.from_verdict v
  | none => _fallback_response raw should_reveal

def REVEAL_THRESHOLD : ℤ := 2

/-- Outcome of the external collaborator call inside `send_message`'s `try`:
either the call raised, or it returned raw output together with the result of
the JSON-extraction pipeline on it. -/
inductive AgentOutcome where
  | raised : AgentOutcome
  | output (raw : String) (parsed : Option AgentVerdict) : AgentOutcome

/-- The explicit-reveal counter after the current turn's message is examined
(`send_message` lines 169-173). -/
def reveal_count_after (s : AgentSessionState) (user_message : String) : ℤ :=
  if _is_explicit_reveal_request user_message then
    s.explicit_reveal_request_count + 1
  else
    s.explicit_reveal_request_count

/-- `FoundryAgentClient.send_message`: one verdict request in card mode.
Returns the mutated session, the response, and whether the system prompt was
annotated with the reveal instruction.  On an exception from the agent call
the reveal-counter update survives but no messages are appended and the
degraded `error_response` is returned. -/
def send_message (s : AgentSessionState) (user_message : String)
    (outcome : AgentOutcome) : AgentSessionState × AgentResponse × Bool :=
  let s1 :=
    if _is_explicit_reveal_request user_message then
      { s with explicit_reveal_request_count := s.explicit_reveal_request_count + 1 }
    else s
  let should_reveal : Bool := decide (REVEAL_THRESHOLD ≤ s1.explicit_reveal_request_count)
  let annotated : Bool := should_reveal && !s1.revealed
  match outcome with
  | .raised =>
      (s1, AgentResponse.error_response
        "I\u0027m having trouble processing your response. Please try again.", annotated)
  | .output raw parsed =>
      let response := _parse_response raw parsed should_reveal
      let s2 := (add_message s1 "user" user_message).1
      let s3 := (add_message s2 "assistant" response.feedback).1
      ({ s3 with is_correct := response.is_correct, revealed := response.revealed },
        response, annotated)

/-! ## Free-mode chat handler (`backend/app/routers/learn.py`,
`_handle_free_mode_chat`) -/

/-- Modelled from the spec: `send_free_mode_message` is repository code absent
from the provided sources (only its call site and test mocks appear).  Per the
spec (§4.4, "Turn in Free"), it invokes the collaborator without item context
and appends the turn's user and assistant messages to `contextMessages`
bounded to the free-mode window via `add_message`.  The returned flag is
whether appending caused truncation. -/
def send_free_mode_message (s : AgentSessionState) (user_message feedback : String) :
    AgentSessionState × Bool :=
  let (s1, r1) := add_message s "user" user_message
  let (s2, r2) := add_message s1 "assistant" feedback
  (s2, r1.window_rolled_over || r2.window_rolled_over)

/-- Result of a free-mode turn: the new session state, the resulting mode,
the card started (if any), and whether the due-item re-check ran. -/
structure FreeModeTurnResult where
  state : AgentSessionState
  result_mode : Mode
  started_card : Option String
  rechecked_due : Bool

/-- `_handle_free_mode_chat`: after the collaborator turn, the handler
re-checks for a due card when `len(agent_context_messages) >=
FREE_MODE_MAX_MESSAGES` (learn.py line 586) — not when the append actually
trimmed — and transitions to card mode if the re-check finds a due card
(`due_card`, the repository answer, is a parameter). -/
def _handle_free_mode_chat (s : AgentSessionState) (user_message feedback : String)
    (due_card : Option String) : FreeModeTurnResult :=
  let s1 := (send_free_mode_message s user_message feedback).1
  let rolled : Bool :=
    decide (FREE_MODE_MAX_MESSAGES ≤ s1.agent_context_messages.length)
  if rolled then
    match due_card with
    | some cid => ⟨start_card s1 cid, .card, some cid, true⟩
    | none => ⟨s1, .free, none, true⟩
  else
    ⟨s1, .free, none, false⟩

/-- Outcome of the Free-mode part of a chat turn: dispatcher plus (when the
dispatcher found nothing due) the free-mode handler.  `state` and `mode` are
the session state and mode entering the remainder of the turn: when
`dispatched_to_card` is set the turn continues as a card-mode turn on that
state (card-mode handling is modelled separately); otherwise they are the
free-mode handler's result. -/
structure FreeTurnDispatch where
  state : AgentSessionState
  mode : Mode
  dispatch_rechecked : Bool
  dispatched_to_card : Bool
  handler_rechecked : Bool

/-- `chat_with_tutor` (learn.py lines 381-426) for a session in Free mode
(no active card, so line 383's card lookup is skipped): line 396 queries the
repository for a due card on every such turn — `due_at_dispatch` is its
answer.  If a card is due the session transitions to Focused on it via
`start_card` (line 399) and the turn proceeds as a card-mode turn; only
otherwise does `_handle_free_mode_chat` run (with `due_at_rollover` the
repository's answer to the handler's own window re-check). -/
def chat_with_tutor_free (s : AgentSessionState) (due_at_dispatch : Option String)
    (user_message feedback : String) (due_at_rollover : Option String) :
    FreeTurnDispatch :=
  match due_at_dispatch with
  | some cid => ⟨start_card s cid, .card, true, true, false⟩
  | none =>
      let r := _handle_free_mode_chat s user_message feedback due_at_rollover
      ⟨r.state, r.result_mode, true, false, r.rechecked_due⟩

/-- A concrete fresh card-mode session used by witnesses. -/
def sampleCardSession : AgentSessionState :=
  { ui_conversation_id := "conv", created_at := "2025-01-01T00:00:00Z" }

/-- A concrete store holding one session with active card "A". -/
def sampleStore : SessionStore :=
  { entries := fun k =>
      if k = ("u1", "d1") then
        some ⟨start_card sampleCardSession "A", 100⟩
      else none }

/-- A free-mode session already holding `n` messages. -/
def freeSessionWith (n : ℕ) : AgentSessionState :=
  { ui_conversation_id := "conv", created_at := "t", mode := .free,
    agent_context_messages := (List.range n).map fun i => ⟨"user", toString i⟩ }

/-! ## Time model (`backend/app/srs/time.py` on top of Python `datetime`)

A Python `datetime` is embedded structurally as its civil fields (proleptic
Gregorian calendar) plus the microsecond and an optional fixed UTC offset in
minutes (`none` = naive).  The year is an unbounded `Int`, idealizing
Python's 1..9999 range; theorems that format timestamps carry explicit
in-range hypotheses. -/

structure PyDatetime where
  year : ℤ
  month : ℕ
  day : ℕ
  hour : ℕ
  minute : ℕ
  second : ℕ
  microsecond : ℕ
  tz_offset_minutes : Option ℤ
deriving DecidableEq, Repr

def isLeapYear (y : ℤ) : Bool := (y % 4 == 0 && y % 100 != 0) || y % 400 == 0

def daysInMonth (y : ℤ) (m : ℕ) : ℕ :=
  if m = 2 then (if isLeapYear y then 29 else 28)
  else if m = 4 ∨ m = 6 ∨ m = 9 ∨ m = 11 then 30
  else 31

structure CivilDate where
  year : ℤ
  month : ℕ
  day : ℕ
deriving DecidableEq, Repr

/-- The day after a civil date (Gregorian month/year rollover). -/
def nextDate (d : CivilDate) : CivilDate :=
  if d.day < daysInMonth d.year d.month then ⟨d.year, d.month, d.day + 1⟩
  else if d.month < 12 then ⟨d.year, d.month + 1, 1⟩
  else ⟨d.year + 1, 1, 1⟩

/-- The day before a civil date. -/
def prevDate (d : CivilDate) : CivilDate :=
  if 1 < d.day then ⟨d.year, d.month, d.day - 1⟩
  else if 1 < d.month then ⟨d.year, d.month - 1, daysInMonth d.year (d.month - 1)⟩
  else ⟨d.year - 1, 12, 31⟩

def addDaysDate (d : CivilDate) (n : ℤ) : CivilDate :=
  if 0 ≤ n then nextDate^[n.toNat] d else prevDate^[n.natAbs] d

def ValidDate (d : CivilDate) : Prop :=
  1 ≤ d.month ∧ d.month ≤ 12 ∧ 1 ≤ d.day ∧ d.day ≤ daysInMonth d.year d.month

/-- Validity of the civil fields (Python constructs only such datetimes;
the year upper bound is carried separately where needed). -/
def PyDatetime.IsValid (dt : PyDatetime) : Prop :=
  ValidDate ⟨dt.year, dt.month, dt.day⟩ ∧ dt.hour < 24 ∧ dt.minute < 60
    ∧ dt.second < 60 ∧ dt.microsecond < 1000000

instance ValidDate.decidable (d : CivilDate) : Decidable (ValidDate d) := by
  unfold ValidDate
  infer_instance

instance PyDatetime.IsValid.decidable (dt : PyDatetime) : Decidable dt.IsValid := by
  unfold PyDatetime.IsValid
  infer_instance

def timeOfDay (dt : PyDatetime) : ℕ := dt.hour * 3600 + dt.minute * 60 + dt.second

/-- `dt + timedelta(seconds=delta)`: Python timedelta addition acts on the
civil fields (no timezone conversion), carrying whole days into the date. -/
def addSeconds (dt : PyDatetime) (delta : ℤ) : PyDatetime :=
  let total : ℤ := (timeOfDay dt : ℤ) + delta
  let tod : ℕ := (total.emod 86400).toNat
  let date := addDaysDate ⟨dt.year, dt.month, dt.day⟩ (total.ediv 86400)
  { dt with
    year := date.year
    month := date.month
    day := date.day
    hour := tod / 3600
    minute := tod % 3600 / 60
    second := tod % 60 }

/-- `dt.astimezone(timezone.utc)` for an aware `dt`: shift the civil time by
the negated offset and stamp offset 0.  (Naive datetimes are returned
unchanged; the embedded code never converts a naive datetime.) -/
def astimezoneUtc (dt : PyDatetime) : PyDatetime :=
  match dt.tz_offset_minutes with
  | none => dt
  | some o => { addSeconds dt (-(60 * o)) with tz_offset_minutes := some 0 }

/-- Decimal digit character (callers always pass `n ≤ 9`). -/
def digitChar (n : ℕ) : Char := Char.ofNat (48 + n)

/-- `%02d` (fields are `< 100`). -/
def pad2 (n : ℕ) : List Char := [digitChar (n / 10), digitChar (n % 10)]

/-- `%04d` for the year (Python's year range keeps `0 ≤ y ≤ 9999`). -/
def pad4 (y : ℤ) : List Char :=
  [digitChar (y.toNat / 1000), digitChar (y.toNat / 100 % 10),
   digitChar (y.toNat / 10 % 10), digitChar (y.toNat % 10)]

/-- `%06d` for the microsecond fraction. -/
def pad6 (n : ℕ) : List Char :=
  [digitChar (n / 100000), digitChar (n / 10000 % 10), digitChar (n / 1000 % 10),
   digitChar (n / 100 % 10), digitChar (n / 10 % 10), digitChar (n % 10)]

/-- The offset suffix of `datetime.isoformat()` (`±HH:MM`, empty when naive). -/
def offsetChars : Option ℤ → List Char
  | none => []
  | some o =>
      if 0 ≤ o then '+' :: pad2 (o.toNat / 60) ++ ':' :: pad2 (o.toNat % 60)
      else '-' :: pad2 (o.natAbs / 60) ++ ':' :: pad2 (o.natAbs % 60)

/-- `datetime.isoformat()` without the offset suffix:
`YYYY-MM-DDTHH:MM:SS[.ffffff]`. -/
def isoCharsNoOffset (dt : PyDatetime) : List Char :=
  pad4 dt.year ++ '-' :: pad2 dt.month ++ '-' :: pad2 dt.day
    ++ 'T' :: pad2 dt.hour ++ ':' :: pad2 dt.minute ++ ':' :: pad2 dt.second
    ++ (if dt.microsecond = 0 then [] else '.' :: pad6 dt.microsecond)

/-- `utc_datetime_to_iso_z(dt)`: attach UTC to naive input / convert aware
input to UTC, drop microseconds, render `isoformat()` and turn the
`"+00:00"` suffix into `"Z"`.  (After UTC conversion the rendering is
`isoCharsNoOffset ++ "+00:00"` with `'+'` occurring nowhere else, so Python's
`.replace("+00:00", "Z")` is exactly this suffix swap.) -/
def utc_datetime_to_iso_z (dt : PyDatetime) : String :=
  let u := match dt.tz_offset_minutes with
    | none => { dt with tz_offset_minutes := some 0 }
    | some _ => astimezoneUtc dt
  let u := { u with microsecond := 0 }
  String.mk (isoCharsNoOffset u ++ ['Z'])

def charToDigit? (c : Char) : Option ℕ :=
  if '0' ≤ c ∧ c ≤ '9' then some (c.toNat - 48) else none

def digits2 (a b : Char) : Option ℕ := do
  let x ← charToDigit? a
  let y ← charToDigit? b
  pure (10 * x + y)

def digits4 (a b c d : Char) : Option ℕ := do
  let x ← charToDigit? a
  let y ← charToDigit? b
  let z ← charToDigit? c
  let w ← charToDigit? d
  pure (1000 * x + 100 * y + 10 * z + w)

/-- Greedily read decimal digits off the front of a character stream. -/
def takeDigits : List Char → List ℕ × List Char
  | [] => ([], [])
  | c :: rest =>
      match charToDigit? c with
      | some d =>
          let (ds, r) := takeDigits rest
          (d :: ds, r)
      | none => ([], c :: rest)

/-- Value in microseconds of a 1-6 digit fraction. -/
def fracValue (ds : List ℕ) : Option ℕ :=
  if ds.length = 0 ∨ 6 < ds.length then none
  else some ((ds.foldl (fun a d => 10 * a + d) 0) * 10 ^ (6 - ds.length))

/-- Parse the optional `±HH:MM` offset suffix of `fromisoformat`. -/
def parseOffset : List Char → Option (Option ℤ)
  | [] => some none
  | '+' :: h1 :: h2 :: ':' :: m1 :: m2 :: [] => do
      let h ← digits2 h1 h2
      let m ← digits2 m1 m2
      if h < 24 ∧ m < 60 then pure (some ((h * 60 + m : ℕ) : ℤ)) else none
  | '-' :: h1 :: h2 :: ':' :: m1 :: m2 :: [] => do
      let h ← digits2 h1 h2
      let m ← digits2 m1 m2
      if h < 24 ∧ m < 60 then pure (some (-((h * 60 + m : ℕ) : ℤ))) else none
  | _ => none

/-- Parse the `[.ffffff][±HH:MM]` tail following the seconds. -/
def parseTimeTail : List Char → Option (ℕ × Option ℤ)
  | '.' :: rest =>
      let (ds, r) := takeDigits rest
      do
        let micro ← fracValue ds
        let off ← parseOffset r
        pure (micro, off)
  | rest => do
      let off ← parseOffset rest
      pure (0, off)

/-- `datetime.fromisoformat` on the shapes this codebase produces and parses:
`YYYY-MM-DD[THH:MM:SS[.ffffff][±HH:MM]]`, with field validation. -/
def fromisoformatList : List Char → Option PyDatetime
  | y1 :: y2 :: y3 :: y4 :: '-' :: mo1 :: mo2 :: '-' :: d1 :: d2 :: rest => do
      let y ← digits4 y1 y2 y3 y4
      let mo ← digits2 mo1 mo2
      let d ← digits2 d1 d2
      let (h, mi, sec, micro, off) ← (do
        match rest with
        | [] => pure (0, 0, 0, 0, (none : Option ℤ))
        | 'T' :: h1 :: h2 :: ':' :: mi1 :: mi2 :: ':' :: s1 :: s2 :: tail => do
            let h ← digits2 h1 h2
            let mi ← digits2 mi1 mi2
            let sec ← digits2 s1 s2
            let (micro, off) ← parseTimeTail tail
            pure (h, mi, sec, micro, off)
        | _ => none)
      if 1 ≤ y ∧ y ≤ 9999 ∧ 1 ≤ mo ∧ mo ≤ 12 ∧ 1 ≤ d ∧ d ≤ daysInMonth (y : ℤ) mo
          ∧ h < 24 ∧ mi < 60 ∧ sec < 60 then
        pure ⟨(y : ℤ), mo, d, h, mi, sec, micro, off⟩
      else none
  | _ => none

def fromisoformat (s : String) : Option PyDatetime := fromisoformatList s.toList

/-- `parse_iso_z(s)`: rewrite a trailing `'Z'` into `"+00:00"`, parse, treat a
naive result as UTC, and convert to UTC. -/
def parse_iso_z (s : String) : Option PyDatetime :=
  let l := s.toList
  let l := if l.getLast? = some 'Z' then l.dropLast ++ ('+' :: '0' :: '0' :: ':' :: '0' :: '0' :: []) else l
  match fromisoformat (String.mk l) with
  | none => none
  | some dt =>
      let dt := if dt.tz_offset_minutes = none then { dt with tz_offset_minutes := some 0 } else dt
      some (astimezoneUtc dt)

/-- `add_minutes_iso(now, minutes)`. -/
def add_minutes_iso (now : PyDatetime) (minutes : ℤ) : String :=
  utc_datetime_to_iso_z (addSeconds now (60 * minutes))

/-- `add_hours_iso(now, hours)`. -/
def add_hours_iso (now : PyDatetime) (hours : ℤ) : String :=
  utc_datetime_to_iso_z (addSeconds now (3600 * hours))

/-- `add_days_iso(now, days)`. -/
def add_days_iso (now : PyDatetime) (days : ℤ) : String :=
  utc_datetime_to_iso_z (addSeconds now (86400 * days))

/-! ## Due-date policy and review grading (`backend/app/routers/learn.py`) -/

/-- `_due_at_for_grade(now, grade)`: the fixed-offset table; `grade` is the
runtime string, and any string outside the four literals raises `ValueError`. -/
def _due_at_for_grade (now : PyDatetime) (grade : String) : Except String String :=
  if grade = "again" then .ok (add_minutes_iso now 2)
  else if grade = "hard" then .ok (add_minutes_iso now 10)
  else if grade = "good" then .ok (add_hours_iso now 24)
  else if grade = "easy" then .ok (add_days_iso now 4)
  else .error ("Invalid grade: " ++ grade)

/-- The offsets the claim states, in seconds: again → 2 min, hard → 10 min,
good → 24 h, easy → 4 days. -/
def gradeOffsetSeconds : Grade → ℤ
  | .again => 120
  | .hard => 600
  | .good => 86400
  | .easy => 345600

/-- `_GRADE_TO_QUALITY`. -/
def _GRADE_TO_QUALITY : Grade → ℤ
  | .again => 0
  | .hard => 3
  | .good => 4
  | .easy => 5

/-- The `Card` model fields touched by grading (`backend/app/models/card.py`). -/
structure Card where
  id : String
  deckId : String
  front : String
  back : String
  easeFactor : ℚ
  repetitions : ℤ
  intervalDays : ℤ
  dueAt : String
  lastReviewedAt : Option String := none
  lastGrade : Option Grade := none
  lastGradedAt : Option String := none
  updatedAt : Option String := none
deriving DecidableEq, Repr

/-- `apply_review_grade(card, grade)`: update the SM-2 triple, the fixed-offset
due date, and the grade-tracking timestamps.  The two `utc_now_iso()` reads of
the source are idealized as the single instant `now` (the claims only concern
the `dueAt` computed from the grading time).  The `.error` fallbacks are
unreachable: mapped qualities lie in `[0, 5]` and `grade` is one of the four
literals. -/
def apply_review_grade (card : Card) (grade : Grade) (now : PyDatetime) : Card :=
  let st : SM2State := ⟨card.easeFactor, card.repetitions, card.intervalDays⟩
  let new_state :=
    match apply_sm2 st (_GRADE_TO_QUALITY grade) with
    | .ok ns => ns
    | .error _ => st
  let now_iso := utc_datetime_to_iso_z now
  let dueAt :=
    match _due_at_for_grade now grade.toStr with
    | .ok d => d
    | .error _ => card.dueAt
  { card with
    easeFactor := new_state.ease_factor
    repetitions := new_state.repetitions
    intervalDays := new_state.interval_days
    lastReviewedAt := some now_iso
    dueAt := dueAt
    updatedAt := some now_iso
    lastGrade := some grade
    lastGradedAt := some now_iso }

/-- A grading instant just before a month rollover: 2026-01-31T23:59:00Z. -/
def sampleNow : PyDatetime := ⟨2026, 1, 31, 23, 59, 0, 0, some 0⟩

/-- A concrete card due for review. -/
def sampleCard : Card :=
  { id := "c1", deckId := "d1", front := "dog", back := "Hund",
    easeFactor := 5/2, repetitions := 0, intervalDays := 0,
    dueAt := "2026-01-31T00:00:00Z" }

/-- An aware non-UTC instant whose UTC conversion crosses a year boundary:
2025-12-31T19:30:00 at offset -05:00 (= 2026-01-01T00:30:00Z). -/
def sampleAware : PyDatetime := ⟨2025, 12, 31, 19, 30, 0, 250000, some (-300)⟩

/-- Iterated `add_message` (a whole sequence of calls). -/
def run_add_messages (s : AgentSessionState) (ops : List (String × String)) :
    AgentSessionState :=
  ops.foldl (fun st op => (add_message st op.1 op.2).1) s

/-- The session invariant of the spec's data model: Focused (card) mode holds
iff an active item is set, Free mode iff it is unset. -/
def SessionInv (s : AgentSessionState) : Prop :=
  (s.mode = .card ↔ s.card_id ≠ none) ∧ (s.mode = .free ↔ s.card_id = none)

/-- Elementary session-state mutations performed by the chat-turn handlers
(`routers/learn.py`) and the verdict client (`agents/foundry_client.py`):
`start_card` / `start_free_mode` transitions, history appends, attempt and
reveal counter increments, resolution marking, context resets, verdict flag
and grade updates. -/
inductive SessionStep : AgentSessionState → AgentSessionState → Prop where
  | to_card (s : AgentSessionState) (cid : String) : SessionStep s (start_card s cid)
  | to_free (s : AgentSessionState) : SessionStep s (start_free_mode s)
  | add_msg (s : AgentSessionState) (role content : String) :
      SessionStep s (add_message s role content).1
  | incr_attempt (s : AgentSessionState) :
      SessionStep s { s with attempt_count := s.attempt_count + 1 }
  | resolve (s : AgentSessionState) (t : String) (c r : Bool) :
      SessionStep s { s with resolved_at := some t, is_correct := c, revealed := r }
  | reset (s : AgentSessionState) : SessionStep s (reset_agent_context s)
  | incr_reveal (s : AgentSessionState) :
      SessionStep s { s with explicit_reveal_request_count :=
        s.explicit_reveal_request_count + 1 }
  | verdict (s : AgentSessionState) (c r : Bool) :
      SessionStep s { s with is_correct := c, revealed := r }
  | set_grade (s : AgentSessionState) (g : Grade) :
      SessionStep s { s with last_grade := some g }

/-- Session states reachable through Session Store creation followed by any
number of chat-turn mutations.  `get_or_create` / `get_or_create_session`
outputs stay inside this set: they either create (`created`), restart on a new
card (`to_card` step), or return a stored state unchanged. -/
inductive ReachableSession : AgentSessionState → Prop where
  | created (user deck : String) (cid : Option String) (created_at : String) :
      ReachableSession (_create_session user deck cid created_at)
  | step (s s' : AgentSessionState) :
      ReachableSession s → SessionStep s s' → ReachableSession s'

/-! ### Session-state helper lemmas -/

lemma add_message_mode (s : AgentSessionState) (role content : String) :
    (add_message s role content).1.mode = s.mode := by
  cases hm : s.mode <;> simp only [add_message, hm] <;> split <;> rfl

lemma add_message_card_id (s : AgentSessionState) (role content : String) :
    (add_message s role content).1.card_id = s.card_id := by
  cases hm : s.mode <;> simp only [add_message, hm] <;> split <;> rfl

lemma lastN_length {α : Type} (n : ℕ) (l : List α) : (lastN n l).length ≤ n := by
  simp only [lastN, List.length_drop]
  omega

lemma add_message_length_bound (s : AgentSessionState) (role content : String) :
    (s.mode = .card →
      (add_message s role content).1.agent_context_messages.length ≤ CARD_MODE_MAX_MESSAGES)
    ∧ (s.mode = .free →
      (add_message s role content).1.agent_context_messages.length ≤ FREE_MODE_MAX_MESSAGES) := by
  constructor <;> intro hm <;> simp only [add_message, hm] <;> split_ifs with h
  · exact lastN_length _ _
  · simpa using Nat.le_of_not_lt h
  · exact lastN_length _ _
  · simpa using Nat.le_of_not_lt h

lemma run_add_messages_bound (ops : List (String × String)) (s : AgentSessionState)
    (hops : ops ≠ []) :
    ((run_add_messages s ops).mode = .card →
      (run_add_messages s ops).agent_context_messages.length ≤ CARD_MODE_MAX_MESSAGES)
    ∧ ((run_add_messages s ops).mode = .free →
      (run_add_messages s ops).agent_context_messages.length ≤ FREE_MODE_MAX_MESSAGES) := by
  induction ops generalizing s with
  | nil => exact absurd rfl hops
  | cons op rest ih =>
    rcases rest with _ | ⟨op2, rest2⟩
    · have h := add_message_length_bound s op.1 op.2
      have hm := add_message_mode s op.1 op.2
      constructor <;> intro hmode
      · exact h.1 (hm ▸ hmode)
      · exact h.2 (hm ▸ hmode)
    · exact ih ((add_message s op.1 op.2).1) (by simp)

lemma add_message_rollover_iff (s : AgentSessionState) (role content : String) :
    (add_message s role content).2.window_rolled_over = true ↔
      s.mode = .free ∧ FREE_MODE_MAX_MESSAGES < s.agent_context_messages.length + 1 := by
  cases hm : s.mode <;> simp only [add_message, hm]
  · split <;> simp
  · split_ifs with h
    · simpa using h
    · simpa using h

lemma add_message_reveal_count (s : AgentSessionState) (role content : String) :
    (add_message s role content).1.explicit_reveal_request_count =
      s.explicit_reveal_request_count := by
  cases hm : s.mode <;> simp only [add_message, hm] <;> split <;> rfl

lemma add_message_length_eq (s : AgentSessionState) (role content : String) :
    (add_message s role content).2.window_rolled_over = true →
    (add_message s role content).1.agent_context_messages.length =
      FREE_MODE_MAX_MESSAGES := by
  intro h
  rcases (add_message_rollover_iff s role content).1 h with ⟨hm, hlen⟩
  simp only [add_message, hm]
  split
  · simp only [lastN, List.length_drop, List.length_append, List.length_cons,
      List.length_nil]
    omega
  · rename_i hc
    exfalso
    apply hc
    simp only [List.length_append, List.length_cons, List.length_nil]
    omega

lemma send_message_reveal_count (s : AgentSessionState) (msg : String)
    (outcome : AgentOutcome) :
    (send_message s msg outcome).1.explicit_reveal_request_count =
      reveal_count_after s msg := by
  rw [send_message.eq_def, reveal_count_after]
  by_cases h : _is_explicit_reveal_request msg <;>
    rcases outcome with _ | ⟨raw, parsed⟩ <;>
      simp [h, add_message_reveal_count]

/-- Behaviour of the inner free-mode handler: its re-check runs exactly when
the history is full (≥ 10) after the turn's append; truncation implies the
re-check; and it moves to card mode iff the re-check ran and found a due card. -/
lemma handle_free_mode_recheck_spec (s : AgentSessionState) (msg fb : String)
    (due : Option String) :
    ((_handle_free_mode_chat s msg fb due).rechecked_due = true ↔
      FREE_MODE_MAX_MESSAGES ≤
        (send_free_mode_message s msg fb).1.agent_context_messages.length)
    ∧ ((send_free_mode_message s msg fb).2 = true →
        (_handle_free_mode_chat s msg fb due).rechecked_due = true)
    ∧ ((_handle_free_mode_chat s msg fb due).result_mode = .card ↔
        (_handle_free_mode_chat s msg fb due).rechecked_due = true
          ∧ due.isSome = true) := by
  have hiff : (_handle_free_mode_chat s msg fb due).rechecked_due = true ↔
      FREE_MODE_MAX_MESSAGES ≤
        (send_free_mode_message s msg fb).1.agent_context_messages.length := by
    rw [_handle_free_mode_chat.eq_def]
    by_cases hr : FREE_MODE_MAX_MESSAGES ≤
        (send_free_mode_message s msg fb).1.agent_context_messages.length
    · rcases due with _ | cid <;> simp [hr]
    · simp [hr]
  refine ⟨hiff, ?_, ?_⟩
  · intro htrim
    have h2 : (add_message (add_message s "user" msg).1 "assistant" fb).2.window_rolled_over
        = true := by
      by_contra h2f
      rw [Bool.not_eq_true] at h2f
      have h1 : (add_message s "user" msg).2.window_rolled_over = true := by
        rcases h1c : (add_message s "user" msg).2.window_rolled_over with _ | _
        · rw [send_free_mode_message] at htrim
          simp only [h1c, h2f] at htrim
          cases htrim
        · rfl
      have hlen1 := add_message_length_eq s "user" msg h1
      rcases (add_message_rollover_iff s "user" msg).1 h1 with ⟨hmode, -⟩
      have hmode1 : (add_message s "user" msg).1.mode = .free := by
        rw [add_message_mode, hmode]
      have := (add_message_rollover_iff (add_message s "user" msg).1 "assistant" fb).2
        ⟨hmode1, by rw [hlen1]; omega⟩
      rw [h2f] at this
      cases this
    apply hiff.2
    have : (send_free_mode_message s msg fb).1 =
        (add_message (add_message s "user" msg).1 "assistant" fb).1 := rfl
    rw [this, add_message_length_eq _ "assistant" fb h2]
  · rw [_handle_free_mode_chat.eq_def]
    by_cases hr : FREE_MODE_MAX_MESSAGES ≤
        (send_free_mode_message s msg fb).1.agent_context_messages.length
    · rcases due with _ | cid <;> simp [hr]
    · simp [hr]

/-! ### Calendar and formatting helper lemmas -/

lemma daysInMonth_ge (y : ℤ) (m : ℕ) : 28 ≤ daysInMonth y m := by
  unfold daysInMonth
  split_ifs <;> omega

lemma daysInMonth_le (y : ℤ) (m : ℕ) : daysInMonth y m ≤ 31 := by
  unfold daysInMonth
  split_ifs <;> omega

lemma nextDate_valid (d : CivilDate) (h : ValidDate d) : ValidDate (nextDate d) := by
  obtain ⟨hm1, hm2, hd1, hd2⟩ := h
  have g1 := daysInMonth_ge d.year (d.month + 1)
  have g2 := daysInMonth_ge (d.year + 1) 1
  unfold nextDate ValidDate
  split_ifs with h1 h2 <;> dsimp only <;>
    exact ⟨by omega, by omega, by omega, by omega⟩

lemma iterate_nextDate_valid (n : ℕ) (d : CivilDate) (h : ValidDate d) :
    ValidDate (nextDate^[n] d) := by
  induction n generalizing d with
  | zero => exact h
  | succ k ih =>
      rw [Function.iterate_succ_apply]
      exact ih (nextDate d) (nextDate_valid d h)

lemma prevDate_valid (d : CivilDate) (h : ValidDate d) : ValidDate (prevDate d) := by
  obtain ⟨hm1, hm2, hd1, hd2⟩ := h
  have g1 := daysInMonth_ge d.year (d.month - 1)
  have h31 : daysInMonth (d.year - 1) 12 = 31 := rfl
  unfold prevDate ValidDate
  split_ifs with h1 h2 <;> dsimp only <;>
    exact ⟨by omega, by omega, by omega, by omega⟩

lemma iterate_prevDate_valid (n : ℕ) (d : CivilDate) (h : ValidDate d) :
    ValidDate (prevDate^[n] d) := by
  induction n generalizing d with
  | zero => exact h
  | succ k ih =>
      rw [Function.iterate_succ_apply]
      exact ih (prevDate d) (prevDate_valid d h)

lemma addDaysDate_valid (d : CivilDate) (n : ℤ) (h : ValidDate d) :
    ValidDate (addDaysDate d n) := by
  unfold addDaysDate
  split_ifs with h0
  · exact iterate_nextDate_valid _ d h
  · exact iterate_prevDate_valid _ d h

lemma nextDate_year_bound (d : CivilDate) :
    d.year ≤ (nextDate d).year ∧ (nextDate d).year ≤ d.year + 1 := by
  unfold nextDate
  split_ifs <;> dsimp only <;> omega

lemma iterate_nextDate_year_bound (n : ℕ) (d : CivilDate) :
    d.year ≤ (nextDate^[n] d).year ∧ (nextDate^[n] d).year ≤ d.year + n := by
  induction n generalizing d with
  | zero => simp
  | succ k ih =>
      rw [Function.iterate_succ_apply]
      have h1 := nextDate_year_bound d
      have h2 := ih (nextDate d)
      constructor <;> omega

lemma addSeconds_tz (dt : PyDatetime) (δ : ℤ) :
    (addSeconds dt δ).tz_offset_minutes = dt.tz_offset_minutes := rfl

lemma addSeconds_micro (dt : PyDatetime) (δ : ℤ) :
    (addSeconds dt δ).microsecond = dt.microsecond := rfl

lemma addSeconds_valid (dt : PyDatetime) (δ : ℤ) (hv : dt.IsValid) :
    (addSeconds dt δ).IsValid := by
  obtain ⟨hdate, hh, hmi, hs, hmic⟩ := hv
  have hmod0 : (0 : ℤ) ≤ ((timeOfDay dt : ℤ) + δ).emod 86400 :=
    Int.emod_nonneg _ (by norm_num)
  have hmod1 : ((timeOfDay dt : ℤ) + δ).emod 86400 < 86400 :=
    Int.emod_lt_of_pos _ (by norm_num)
  unfold PyDatetime.IsValid addSeconds
  dsimp only
  exact ⟨addDaysDate_valid _ _ hdate, by omega, by omega, by omega, hmic⟩

lemma addSeconds_year_bound (dt : PyDatetime) (δ : ℤ) (h0 : 0 ≤ δ) (h4 : δ ≤ 345600)
    (hv : dt.IsValid) :
    dt.year ≤ (addSeconds dt δ).year ∧ (addSeconds dt δ).year ≤ dt.year + 4 := by
  obtain ⟨hdate, hh, hmi, hs, hmic⟩ := hv
  have htod : (timeOfDay dt : ℤ) < 86400 := by
    unfold timeOfDay
    push_cast
    omega
  have htod0 : (0 : ℤ) ≤ (timeOfDay dt : ℤ) := by positivity
  have hk0 : 0 ≤ ((timeOfDay dt : ℤ) + δ).ediv 86400 :=
    Int.ediv_nonneg (by omega) (by norm_num)
  have hk4 : ((timeOfDay dt : ℤ) + δ).ediv 86400 ≤ 4 := by
    have hle : (timeOfDay dt : ℤ) + δ ≤ 431999 := by omega
    calc ((timeOfDay dt : ℤ) + δ).ediv 86400
        ≤ (431999 : ℤ).ediv 86400 := Int.ediv_le_ediv (by norm_num) hle
      _ = 4 := by decide
  show dt.year ≤ (addDaysDate ⟨dt.year, dt.month, dt.day⟩
      (((timeOfDay dt : ℤ) + δ).ediv 86400)).year
    ∧ (addDaysDate ⟨dt.year, dt.month, dt.day⟩
      (((timeOfDay dt : ℤ) + δ).ediv 86400)).year ≤ dt.year + 4
  unfold addDaysDate
  rw [if_pos hk0]
  have hb := iterate_nextDate_year_bound (((timeOfDay dt : ℤ) + δ).ediv 86400).toNat
    ⟨dt.year, dt.month, dt.day⟩
  have ht : ((((timeOfDay dt : ℤ) + δ).ediv 86400).toNat : ℤ) ≤ 4 := by omega
  constructor <;> simp at hb ⊢ <;> omega

lemma charToDigit_digitChar (n : ℕ) (h : n < 10) :
    charToDigit? (digitChar n) = some n := by
  interval_cases n <;> rfl

lemma digits2_pad (n : ℕ) (h : n < 100) :
    digits2 (digitChar (n / 10)) (digitChar (n % 10)) = some n := by
  have e : 10 * (n / 10) + n % 10 = n := by omega
  simp [digits2, charToDigit_digitChar _ (show n / 10 < 10 by omega),
    charToDigit_digitChar _ (show n % 10 < 10 by omega), e]

lemma digits4_pad (n : ℕ) (h : n < 10000) :
    digits4 (digitChar (n / 1000)) (digitChar (n / 100 % 10)) (digitChar (n / 10 % 10))
      (digitChar (n % 10)) = some n := by
  have e : 1000 * (n / 1000) + 100 * (n / 100 % 10) + 10 * (n / 10 % 10) + n % 10 = n := by
    omega
  simp [digits4, charToDigit_digitChar _ (show n / 1000 < 10 by omega),
    charToDigit_digitChar _ (show n / 100 % 10 < 10 by omega),
    charToDigit_digitChar _ (show n / 10 % 10 < 10 by omega),
    charToDigit_digitChar _ (show n % 10 < 10 by omega), e]

lemma fromisoformatList_canonical (y : ℤ) (mo d h mi s : ℕ)
    (hy1 : 1 ≤ y) (hy2 : y ≤ 9999) (hmo1 : 1 ≤ mo) (hmo2 : mo ≤ 12)
    (hd1 : 1 ≤ d) (hd2 : d ≤ daysInMonth y mo)
    (hh : h < 24) (hmi : mi < 60) (hs : s < 60) :
    fromisoformatList (pad4 y ++ '-' :: pad2 mo ++ '-' :: pad2 d
      ++ 'T' :: pad2 h ++ ':' :: pad2 mi ++ ':' :: pad2 s
      ++ '+' :: '0' :: '0' :: ':' :: '0' :: '0' :: []) =
      some ⟨y, mo, d, h, mi, s, 0, some 0⟩ := by
  have hyt : ((y.toNat : ℕ) : ℤ) = y := Int.toNat_of_nonneg (by omega)
  have hyn : y.toNat ≤ 9999 := by omega
  have hdle := daysInMonth_le y mo
  have hd2n : d ≤ daysInMonth ((y.toNat : ℕ) : ℤ) mo := by rw [hyt]; exact hd2
  have htail : parseTimeTail ('+' :: '0' :: '0' :: ':' :: '0' :: '0' :: []) =
      some (0, some 0) := rfl
  simp only [pad4, pad2, List.cons_append, List.nil_append]
  simp only [fromisoformatList, htail,
    digits4_pad y.toNat (by omega), digits2_pad mo (by omega), digits2_pad d (by omega),
    digits2_pad h (by omega), digits2_pad mi (by omega), digits2_pad s (by omega),
    Option.pure_def, Option.bind_eq_bind, Option.some_bind]
  rw [if_pos ⟨by omega, hyn, hmo1, hmo2, hd1, hd2n, hh, hmi, hs⟩, hyt]

lemma addSeconds_zero (dt : PyDatetime) (hv : dt.IsValid) : addSeconds dt 0 = dt := by
  obtain ⟨y, mo, d, h, mi, s, mic, tz⟩ := dt
  obtain ⟨hdate, hh, hmi, hs, hmic⟩ := hv
  dsimp only at hh hmi hs hmic
  have htod0 : (0 : ℤ) ≤ ((h * 3600 + mi * 60 + s : ℕ) : ℤ) := by positivity
  have htodlt : ((h * 3600 + mi * 60 + s : ℕ) : ℤ) < 86400 := by push_cast; omega
  have h1 : ((h * 3600 + mi * 60 + s : ℕ) : ℤ).emod 86400 =
      ((h * 3600 + mi * 60 + s : ℕ) : ℤ) := Int.emod_eq_of_lt htod0 htodlt
  have h2 : ((h * 3600 + mi * 60 + s : ℕ) : ℤ).ediv 86400 = 0 :=
    Int.ediv_eq_zero_of_lt htod0 htodlt
  have hadd : addDaysDate ⟨y, mo, d⟩ 0 = ⟨y, mo, d⟩ := by
    unfold addDaysDate
    rw [if_pos le_rfl]
    rfl
  simp only [addSeconds, timeOfDay]
  rw [add_zero, h1, h2, hadd, Int.toNat_natCast]
  simp only [PyDatetime.mk.injEq, eq_self_iff_true, true_and, and_true]
  exact ⟨by omega, by omega, by omega⟩

/-- Formatting a UTC datetime with no sub-second part and parsing it back is
the identity (year within Python's representable range). -/
lemma parse_format_roundtrip (u : PyDatetime) (hv : u.IsValid)
    (htz : u.tz_offset_minutes = some 0) (hmicro : u.microsecond = 0)
    (hy1 : 1 ≤ u.year) (hy2 : u.year ≤ 9999) :
    parse_iso_z (utc_datetime_to_iso_z u) = some u
    ∧ utc_datetime_to_iso_z u = String.mk (isoCharsNoOffset u ++ ['Z']) := by
  obtain ⟨y, mo, d, h, mi, s, mic, tz⟩ := u
  obtain rfl : tz = some 0 := htz
  obtain rfl : mic = 0 := hmicro
  obtain ⟨hdate, hh, hmi, hs, -⟩ := hv
  have hv' : PyDatetime.IsValid ⟨y, mo, d, h, mi, s, 0, some 0⟩ :=
    ⟨hdate, hh, hmi, hs, by norm_num⟩
  have hz : addSeconds ⟨y, mo, d, h, mi, s, 0, some 0⟩ (-(60 * 0)) =
      ⟨y, mo, d, h, mi, s, 0, some 0⟩ := by
    norm_num
    exact addSeconds_zero _ hv'
  have hfmt : utc_datetime_to_iso_z ⟨y, mo, d, h, mi, s, 0, some 0⟩ =
      String.mk (isoCharsNoOffset ⟨y, mo, d, h, mi, s, 0, some 0⟩ ++ ['Z']) := by
    unfold utc_datetime_to_iso_z astimezoneUtc
    dsimp only
    rw [hz]
  have hshape : isoCharsNoOffset ⟨y, mo, d, h, mi, s, 0, some 0⟩
        ++ ('+' :: '0' :: '0' :: ':' :: '0' :: '0' :: []) =
      pad4 y ++ '-' :: pad2 mo ++ '-' :: pad2 d ++ 'T' :: pad2 h ++ ':' :: pad2 mi
        ++ ':' :: pad2 s ++ '+' :: '0' :: '0' :: ':' :: '0' :: '0' :: [] := by
    unfold isoCharsNoOffset
    dsimp only
    simp [List.append_assoc]
  obtain ⟨hm1, hm2, hd1, hd2⟩ := hdate
  refine ⟨?_, hfmt⟩
  rw [hfmt]
  unfold parse_iso_z
  dsimp only [String.toList]
  have hlast : (isoCharsNoOffset ⟨y, mo, d, h, mi, s, 0, some 0⟩ ++ ['Z']).getLast? =
      some 'Z' := List.getLast?_concat _
  rw [if_pos hlast, List.dropLast_concat]
  have hff : fromisoformat (String.mk (isoCharsNoOffset ⟨y, mo, d, h, mi, s, 0, some 0⟩
      ++ ('+' :: '0' :: '0' :: ':' :: '0' :: '0' :: []))) =
      fromisoformatList (isoCharsNoOffset ⟨y, mo, d, h, mi, s, 0, some 0⟩
      ++ ('+' :: '0' :: '0' :: ':' :: '0' :: '0' :: [])) := rfl
  rw [hff, hshape, fromisoformatList_canonical y mo d h mi s hy1 hy2 hm1 hm2 hd1 hd2 hh hmi hs]
  dsimp only
  have hsome : ¬ ((⟨y, mo, d, h, mi, s, 0, some 0⟩ : PyDatetime).tz_offset_minutes = none) := by
    simp
  rw [if_neg hsome]
  unfold astimezoneUtc
  dsimp only
  rw [hz]

/-! ## Claim theorems (grade heuristic and interval model) -/

/-- **C2.** For every `attempt_count ≥ 1`: `compute_grade(true, n) = again`;
`compute_grade(false, 1) = easy`; `compute_grade(false, n) = good` for
`n ∈ {2, 3}`; `compute_grade(false, n) = hard` for `n ≥ 4`; and
`compute_grade` raises an invalid-input error for every `attempt_count < 1`. -/
theorem C2_grade_heuristic (n : Int) (revealed : Bool) :
    (1 ≤ n → compute_grade true n = .ok .again)
    ∧ compute_grade false 1 = .ok .easy
    ∧ (n = 2 ∨ n = 3 → compute_grade false n = .ok .good)
    ∧ (4 ≤ n → compute_grade false n = .ok .hard)
    ∧ (n < 1 → isError (compute_grade revealed n) = true) := by
  refine ⟨?_, rfl, ?_, ?_, ?_⟩
  · intro h
    simp [compute_grade, if_neg (by omega : ¬ n < 1)]
  · rintro (rfl | rfl) <;> rfl
  · intro h
    simp only [compute_grade, if_neg (by omega : ¬ n < 1), Bool.false_eq_true, if_false,
      if_neg (by omega : ¬ n = 1), if_pos (by omega : n > 3)]
  · intro h
    simp only [compute_grade, if_pos h, isError]

/-- Witness for C2 at concrete attempt counts. -/
theorem C2_grade_heuristic_witness :
    compute_grade true 5 = .ok .again
    ∧ compute_grade false 1 = .ok .easy
    ∧ compute_grade false 3 = .ok .good
    ∧ compute_grade false 4 = .ok .hard
    ∧ isError (compute_grade false 0) = true :=
  ⟨(C2_grade_heuristic 5 true).1 (by decide),
   (C2_grade_heuristic 1 false).2.1,
   (C2_grade_heuristic 3 false).2.2.1 (Or.inr rfl),
   (C2_grade_heuristic 4 false).2.2.2.1 (by decide),
   (C2_grade_heuristic 0 false).2.2.2.2 (by decide)⟩

/-- **C3.** For every state and every quality `q ∈ [0, 5]`, `apply_sm2` returns
exactly the triple given by the reference algorithm of the spec (ease factor
updated and clamped below at 1.3; lapse resets repetitions and interval;
success increments repetitions with intervals 1, 6, then
`max(1, round(intervalDays·ef'))`); for `q` outside `[0, 5]` it fails with an
invalid-input error instead of returning. -/
theorem C3_interval_model (s : SM2State) (q : ℤ) :
    (0 ≤ q → q ≤ 5 → apply_sm2 s q = .ok (sm2_reference s q))
    ∧ (q < 0 ∨ 5 < q → isError (apply_sm2 s q) = true) := by
  constructor
  · intro h0 h5
    simp only [apply_sm2, sm2_reference, _clamp_ease_factor,
      if_neg (by omega : ¬ (q < 0 ∨ q > 5))]
    split_ifs with h1 <;> simp [max_comm]
  · intro h
    simp only [apply_sm2, if_pos (by omega : q < 0 ∨ q > 5), isError]

/-- Witness for C3: three successive successes at `q = 4` from a fresh item. -/
theorem C3_interval_model_witness :
    apply_sm2 ⟨5/2, 0, 0⟩ 4 = .ok (sm2_reference ⟨5/2, 0, 0⟩ 4)
    ∧ sm2_reference ⟨5/2, 0, 0⟩ 4 = ⟨5/2, 1, 1⟩
    ∧ apply_sm2 ⟨5/2, 1, 1⟩ 4 = .ok ⟨5/2, 2, 6⟩
    ∧ apply_sm2 ⟨5/2, 2, 6⟩ 4 = .ok ⟨5/2, 3, 15⟩
    ∧ isError (apply_sm2 ⟨5/2, 0, 0⟩ 6) = true := by
  refine ⟨(C3_interval_model ⟨5/2, 0, 0⟩ 4).1 (by decide) (by decide), ?_, ?_, ?_,
    (C3_interval_model ⟨5/2, 0, 0⟩ 6).2 (by decide)⟩
  · norm_num [sm2_reference, max_def]
  · rw [(C3_interval_model ⟨5/2, 1, 1⟩ 4).1 (by decide) (by decide)]
    norm_num [sm2_reference, max_def]
  · rw [(C3_interval_model ⟨5/2, 2, 6⟩ 4).1 (by decide) (by decide)]
    norm_num [sm2_reference, max_def, pythonRound]

/-! ## Claim theorems (session state and store) -/

/-- **C6.** After any (nonempty) sequence of `add_message` calls the history
length never exceeds 6 in card mode and never exceeds 10 in free mode, and a
single `add_message` call reports `window_rolled_over = true` exactly when it
trims the history in free mode (appending pushes the length past the 10-entry
window), while in card mode it always reports `false`. -/
theorem C6_context_window_bounds (s : AgentSessionState) (role content : String)
    (ops : List (String × String)) (hops : ops ≠ []) :
    ((run_add_messages s ops).mode = .card →
      (run_add_messages s ops).agent_context_messages.length ≤ CARD_MODE_MAX_MESSAGES)
    ∧ ((run_add_messages s ops).mode = .free →
      (run_add_messages s ops).agent_context_messages.length ≤ FREE_MODE_MAX_MESSAGES)
    ∧ ((add_message s role content).2.window_rolled_over = true ↔
      s.mode = .free ∧ FREE_MODE_MAX_MESSAGES < s.agent_context_messages.length + 1)
    ∧ (s.mode = .card → (add_message s role content).2.window_rolled_over = false) := by
  refine ⟨(run_add_messages_bound ops s hops).1, (run_add_messages_bound ops s hops).2,
    add_message_rollover_iff s role content, ?_⟩
  intro hm
  rcases h : (add_message s role content).2.window_rolled_over with _ | _
  · rfl
  · rcases (add_message_rollover_iff s role content).1 h with ⟨hfree, -⟩
    rw [hm] at hfree
    cases hfree

/-- Witness for C6 on a fresh card-mode session and a one-call sequence. -/
theorem C6_context_window_bounds_witness :
    (run_add_messages sampleCardSession
      [("user", "hi")]).agent_context_messages.length ≤ CARD_MODE_MAX_MESSAGES
    ∧ (add_message sampleCardSession "user" "hi").2.window_rolled_over = false := by
  have h := C6_context_window_bounds sampleCardSession "user" "hi" [("user", "hi")]
    (by simp)
  exact ⟨h.1 rfl, h.2.2.2 rfl⟩

/-- **C7.** With a session for (user, deck) whose active card is `A`:
`get_or_create` with a different card `B` returns a session with
`attempt_count = 0`, empty history, cleared reveal and resolution state,
mode = card and `card_id = B`; `get_or_create` with the same card `A` returns
the stored session completely unchanged, and only the stored entry's
expiration is refreshed (the stored state is `s` itself, with a fresh
`now + ttl` expiry). -/
theorem C7_get_or_create_reset_or_preserve (st : SessionStore)
    (user deck A B : String) (now : ℤ) (created_at : String)
    (s : AgentSessionState)
    (hs : st.lookup (user, deck) now = some s)
    (hA : s.card_id = some A) (hAB : A ≠ B) :
    ((st.get_or_create user deck B now created_at).1.attempt_count = 0
      ∧ (st.get_or_create user deck B now created_at).1.agent_context_messages = []
      ∧ (st.get_or_create user deck B now created_at).1.revealed = false
      ∧ (st.get_or_create user deck B now created_at).1.resolved_at = none
      ∧ (st.get_or_create user deck B now created_at).1.explicit_reveal_request_count = 0
      ∧ (st.get_or_create user deck B now created_at).1.mode = .card
      ∧ (st.get_or_create user deck B now created_at).1.card_id = some B)
    ∧ (st.get_or_create user deck A now created_at).1 = s
    ∧ (st.get_or_create user deck A now created_at).2.entries (user, deck) =
        some ⟨s, now + st.ttl_seconds⟩ := by
  have hne : s.card_id ≠ some B := by
    rw [hA]
    simpa using hAB
  have heq : ¬ s.card_id ≠ some A := by
    rw [hA]
    simp
  refine ⟨?_, ?_, ?_⟩
  · simp [SessionStore.get_or_create, hs, if_pos hne, start_card, reset_agent_context]
  · simp [SessionStore.get_or_create, hs, if_neg heq]
  · simp [SessionStore.get_or_create, hs, if_neg heq, SessionStore.put]

/-- Witness for C7 on `sampleStore` at time 0 (entry valid until 100). -/
theorem C7_get_or_create_reset_or_preserve_witness :
    (sampleStore.get_or_create "u1" "d1" "B" 0 "t").1.attempt_count = 0
    ∧ (sampleStore.get_or_create "u1" "d1" "B" 0 "t").1.card_id = some "B"
    ∧ (sampleStore.get_or_create "u1" "d1" "A" 0 "t").1 =
        start_card sampleCardSession "A"
    ∧ (sampleStore.get_or_create "u1" "d1" "A" 0 "t").2.entries ("u1", "d1") =
        some ⟨start_card sampleCardSession "A", 0 + sampleStore.ttl_seconds⟩ := by
  have h := C7_get_or_create_reset_or_preserve sampleStore "u1" "d1" "A" "B" 0 "t"
    (start_card sampleCardSession "A") (by rfl) (by rfl) (by decide)
  exact ⟨h.1.1, h.1.2.2.2.2.2.2, h.2.1, h.2.2⟩

/-- **C9.** Every session state reachable through Session Store creation and
chat-turn transitions satisfies: mode = card iff `card_id` is set, and
mode = free iff `card_id` is unset — exactly one of Focused-with-item and
Free-without-item holds; moreover `get_or_create` and `get_or_create_session`
return invariant-satisfying states whenever every stored state satisfies the
invariant. -/
theorem C9_mode_card_id_invariant (s : AgentSessionState) (h : ReachableSession s) :
    ((s.mode = .card ↔ s.card_id ≠ none) ∧ (s.mode = .free ↔ s.card_id = none))
    ∧ (∀ (st : SessionStore) (user deck cid : String) (now : ℤ) (created_at : String),
        (∀ k e, st.entries k = some e → SessionInv e.state) →
        SessionInv (st.get_or_create user deck cid now created_at).1)
    ∧ (∀ (st : SessionStore) (user deck : String) (cid : Option String) (now : ℤ)
        (created_at : String),
        (∀ k e, st.entries k = some e → SessionInv e.state) →
        SessionInv (st.get_or_create_session user deck cid now created_at).1) := by
  have hcreate : ∀ (user deck : String) (cid : Option String) (created_at : String),
      SessionInv (_create_session user deck cid created_at) := by
    intro user deck cid created_at
    cases cid <;> simp [SessionInv, _create_session, start_card, start_free_mode,
      reset_agent_context]
  have hstep : ∀ s s', SessionInv s → SessionStep s s' → SessionInv s' := by
    intro s s' hinv hstep
    cases hstep with
    | to_card cid => simp [SessionInv, start_card, reset_agent_context]
    | to_free => simp [SessionInv, start_free_mode, reset_agent_context]
    | add_msg role content =>
        rcases hinv with ⟨h1, h2⟩
        rw [SessionInv, add_message_mode, add_message_card_id]
        exact ⟨h1, h2⟩
    | incr_attempt => exact hinv
    | resolve t c r => exact hinv
    | reset => exact hinv
    | incr_reveal => exact hinv
    | verdict c r => exact hinv
    | set_grade g => exact hinv
  have hreach : ∀ s, ReachableSession s → SessionInv s := by
    intro s hs
    induction hs with
    | created user deck cid created_at => exact hcreate user deck cid created_at
    | step s s' _ hst ih => exact hstep s s' ih hst
  have hlookup : ∀ (st : SessionStore) (key : String × String) (now : ℤ) (s₀ : AgentSessionState),
      (∀ k e, st.entries k = some e → SessionInv e.state) →
      st.lookup key now = some s₀ → SessionInv s₀ := by
    intro st key now s₀ hst hl
    rcases he : st.entries key with _ | e
    · simp [SessionStore.lookup, he] at hl
    · simp only [SessionStore.lookup, he] at hl
      by_cases hn : now < e.expires_at
      · rw [if_pos hn] at hl
        injection hl with hl
        rw [← hl]
        exact hst key e he
      · rw [if_neg hn] at hl
        exact absurd hl (by simp)
  refine ⟨hreach s h, ?_, ?_⟩
  · intro st user deck cid now created_at hst
    rw [SessionStore.get_or_create]
    rcases hl : st.lookup (user, deck) now with _ | s₀
    · exact hcreate user deck (some cid) created_at
    · by_cases hc : s₀.card_id ≠ some cid
      · simp only [if_pos hc]
        simp [SessionInv, start_card, reset_agent_context]
      · simp only [if_neg hc]
        exact hlookup st (user, deck) now s₀ hst hl
  · intro st user deck cid now created_at hst
    rw [SessionStore.get_or_create_session]
    rcases hl : st.lookup (user, deck) now with _ | s₀
    · exact hcreate user deck cid created_at
    · rcases cid with _ | c
      · exact hlookup st (user, deck) now s₀ hst hl
      · by_cases hc : s₀.card_id ≠ some c
        · simp only [if_pos hc]
          simp [SessionInv, start_card, reset_agent_context]
        · simp only [if_neg hc]
          exact hlookup st (user, deck) now s₀ hst hl

/-- Witness for C9: a freshly created card-mode session is Focused with its
item set, and a freshly created free-mode session has no item. -/
theorem C9_mode_card_id_invariant_witness :
    ((_create_session "u" "d" (some "c1") "t").mode = .card
      ↔ (_create_session "u" "d" (some "c1") "t").card_id ≠ none)
    ∧ ((_create_session "u" "d" none "t").mode = .free
      ↔ (_create_session "u" "d" none "t").card_id = none) :=
  ⟨(C9_mode_card_id_invariant _ (ReachableSession.created "u" "d" (some "c1") "t")).1.1,
   (C9_mode_card_id_invariant _ (ReachableSession.created "u" "d" none "t")).1.2⟩

/-! ## Claim theorems (verdict degradation, reveal threshold, free-mode re-check) -/

/-- **C4, counterexample.** The claim says every parse failure yields a
fallback verdict with `revealed = false` and a generic retry message.  But
when the reveal threshold has been reached (`should_reveal = true`), the
code's `_fallback_response` sets `revealed = should_reveal = true`, and its
feedback is the raw collaborator text, not a generic message: concretely, a
turn with one prior explicit reveal request whose message "just tell me the
answer" matches the reveal pattern, and whose collaborator output "no json
here" is unparsable, produces `revealed = true` and feedback "no json here". -/
theorem C4_fallback_counterexample :
    (send_message { sampleCardSession with explicit_reveal_request_count := 1 }
      "just tell me the answer" (.output "no json here" none)).2.1.revealed = true
    ∧ (send_message { sampleCardSession with explicit_reveal_request_count := 1 }
      "just tell me the answer" (.output "no json here" none)).2.1.feedback =
        "no json here" := by
  exact ⟨rfl, rfl⟩

/-- **C4, amended.** When the collaborator call raises, the turn returns the
degraded `error_response` (not correct, not revealed, generic retry message);
when the call returns but its output cannot be parsed into a structured
verdict, the turn returns `_fallback_response`: not correct, `revealed` and
`can_grade` equal to the reveal-threshold flag, feedback derived from the raw
output (or a generic retry message when that is empty).  In both cases the
turn produces a verdict instead of failing (all functions are total). -/
theorem C4_degraded_verdicts (s : AgentSessionState) (msg raw : String) :
    (send_message s msg .raised).2.1 = AgentResponse.error_response
      "I'm having trouble processing your response. Please try again."
    ∧ (send_message s msg .raised).2.1.is_correct = false
    ∧ (send_message s msg .raised).2.1.revealed = false
    ∧ (send_message s msg (.output raw none)).2.1 =
        _fallback_response raw (decide (REVEAL_THRESHOLD ≤ reveal_count_after s msg))
    ∧ (send_message s msg (.output raw none)).2.1.is_correct = false
    ∧ (pyStrip raw = "" →
        (send_message s msg (.output raw none)).2.1.feedback =
          "Please try again with your answer.") := by
  have hfb : (send_message s msg (.output raw none)).2.1 =
      _fallback_response raw (decide (REVEAL_THRESHOLD ≤ reveal_count_after s msg)) := by
    rw [send_message.eq_def, reveal_count_after]
    by_cases h : _is_explicit_reveal_request msg <;> simp [h, _parse_response]
  refine ⟨rfl, rfl, rfl, hfb, ?_, ?_⟩
  · rw [hfb]
    rfl
  · intro hempty
    rw [hfb]
    simp [_fallback_response, hempty]

/-- Witness for C4 (amended): discharging the empty-feedback hypothesis at a
whitespace-only raw output. -/
theorem C4_degraded_verdicts_witness :
    (send_message sampleCardSession "hola" (.output "  " none)).2.1.feedback =
      "Please try again with your answer." :=
  (C4_degraded_verdicts sampleCardSession "hola" "  ").2.2.2.2.2 (by decide)

/-- **C5, counterexample.** The claim says the due-item re-check runs on
exactly those Free-mode turns where appending truncates the 10-message window,
and that nothing else triggers it.  Both parts fail on the code.  (1) The
handler re-checks whenever the history length after the turn is at least 10
(learn.py line 586): on a free-mode session holding 8 messages the turn
appends two messages reaching exactly 10 — no truncation occurs — yet the
handler re-checks and (a due card existing) transitions to card mode.  (2) The
chat dispatcher (learn.py line 396) queries for a due card on every Free-mode
turn before the handler runs: a free-mode session holding only 2 messages —
nowhere near the window bound, no truncation possible — transitions to
Focused on the dispatcher's re-check. -/
theorem C5_recheck_counterexample :
    (send_free_mode_message (freeSessionWith 8) "q" "a").2 = false
    ∧ (_handle_free_mode_chat (freeSessionWith 8) "q" "a" (some "c7")).rechecked_due = true
    ∧ (_handle_free_mode_chat (freeSessionWith 8) "q" "a" (some "c7")).result_mode = .card
    ∧ (chat_with_tutor_free (freeSessionWith 2) (some "c9") "q" "a" none).mode = .card
    ∧ (chat_with_tutor_free (freeSessionWith 2) (some "c9") "q" "a" none).state =
        start_card (freeSessionWith 2) "c9"
    ∧ (freeSessionWith 2).agent_context_messages.length = 2 := by
  exact ⟨rfl, rfl, rfl, rfl, rfl, rfl⟩

/-- **C5, amended.** In Free mode a newly-due-item re-check happens on every
turn: the chat dispatcher queries the repository for a due item at the start
of each turn and, when one exists, transitions to Focused on it (via
`start_card`) before any free-mode handling.  Only when that query finds
nothing does the free-mode handler run; it performs a second re-check after
appending the turn's messages on exactly those turns after which the context
history has reached the full 10-message window — which includes every
truncating turn but also the turn that fills the window to exactly 10 without
truncating — transitioning to Focused when that second query finds a due item
and remaining Free otherwise. -/
theorem C5_free_mode_recheck (s : AgentSessionState) (msg fb : String)
    (dueD dueR : Option String) (hfree : s.mode = .free) :
    (∀ cid, dueD = some cid →
      (chat_with_tutor_free s dueD msg fb dueR).mode = .card
      ∧ (chat_with_tutor_free s dueD msg fb dueR).state = start_card s cid
      ∧ (chat_with_tutor_free s dueD msg fb dueR).handler_rechecked = false)
    ∧ (chat_with_tutor_free s dueD msg fb dueR).dispatch_rechecked = true
    ∧ (dueD = none →
      ((chat_with_tutor_free s dueD msg fb dueR).handler_rechecked = true ↔
        FREE_MODE_MAX_MESSAGES ≤
          (send_free_mode_message s msg fb).1.agent_context_messages.length))
    ∧ (dueD = none → (send_free_mode_message s msg fb).2 = true →
        (chat_with_tutor_free s dueD msg fb dueR).handler_rechecked = true)
    ∧ (dueD = none →
      ((chat_with_tutor_free s dueD msg fb dueR).mode = .card ↔
        (chat_with_tutor_free s dueD msg fb dueR).handler_rechecked = true
          ∧ dueR.isSome = true)) := by
  refine ⟨?_, ?_, ?_, ?_, ?_⟩
  · intro cid hc
    subst hc
    exact ⟨rfl, rfl, rfl⟩
  · rcases dueD with _ | cid <;> rfl
  · intro hn
    subst hn
    exact (handle_free_mode_recheck_spec s msg fb dueR).1
  · intro hn htrim
    subst hn
    exact (handle_free_mode_recheck_spec s msg fb dueR).2.1 htrim
  · intro hn
    subst hn
    exact (handle_free_mode_recheck_spec s msg fb dueR).2.2

/-- Witness for C5 (amended): a due card at dispatch moves a 2-message
free-mode session straight to Focused with no handler re-check; with nothing
due at dispatch, the turn that fills the window (9 messages before, 10 after,
with truncation) triggers the handler's re-check. -/
theorem C5_free_mode_recheck_witness :
    (chat_with_tutor_free (freeSessionWith 2) (some "c9") "q" "a" none).mode = .card
    ∧ (chat_with_tutor_free (freeSessionWith 2) (some "c9") "q" "a" none).handler_rechecked
        = false
    ∧ (chat_with_tutor_free (freeSessionWith 9) none "q" "a" none).handler_rechecked =
        true := by
  have h1 := (C5_free_mode_recheck (freeSessionWith 2) "q" "a" (some "c9") none rfl).1
    "c9" rfl
  have h2 := (C5_free_mode_recheck (freeSessionWith 9) "q" "a" none none rfl).2.2.1 rfl
  exact ⟨h1.1, h1.2.2, h2.2 (by decide)⟩

/-- **C8.** A turn whose learner message matches an explicit reveal-request
pattern increments `explicit_reveal_request_count`; a non-matching turn leaves
it unchanged ("reveal/show/tell me the answer" match, "I don't know" and
"I need help" do not); and — while the answer has not already been revealed —
the verdict request's system prompt carries the reveal instruction exactly
when the updated count has reached the threshold of 2. -/
theorem C8_reveal_threshold (s : AgentSessionState) (msg : String)
    (outcome : AgentOutcome) :
    (_is_explicit_reveal_request msg = true →
      (send_message s msg outcome).1.explicit_reveal_request_count =
        s.explicit_reveal_request_count + 1)
    ∧ (_is_explicit_reveal_request msg = false →
      (send_message s msg outcome).1.explicit_reveal_request_count =
        s.explicit_reveal_request_count)
    ∧ (s.revealed = false →
      ((send_message s msg outcome).2.2 = true ↔
        REVEAL_THRESHOLD ≤ reveal_count_after s msg))
    ∧ _is_explicit_reveal_request "reveal the answer" = true
    ∧ _is_explicit_reveal_request "show me the answer" = true
    ∧ _is_explicit_reveal_request "tell me the answer" = true
    ∧ _is_explicit_reveal_request "I don't know" = false
    ∧ _is_explicit_reveal_request "I need help" = false := by
  refine ⟨?_, ?_, ?_, rfl, rfl, rfl, rfl, rfl⟩
  · intro h
    rw [send_message_reveal_count, reveal_count_after, if_pos h]
  · intro h
    rw [send_message_reveal_count, reveal_count_after,
      if_neg (by rw [h]; exact Bool.false_ne_true)]
  · intro hrev
    rw [send_message.eq_def, reveal_count_after]
    by_cases h : _is_explicit_reveal_request msg <;>
      rcases outcome with _ | ⟨raw, parsed⟩ <;>
        simp [h, hrev, decide_eq_true_eq]

/-- Witness for C8: a first "tell me the answer" increments the counter to 1
(no annotation yet); with one prior explicit request the same message reaches
the threshold and the verdict request is annotated. -/
theorem C8_reveal_threshold_witness :
    (send_message sampleCardSession "tell me the answer"
      .raised).1.explicit_reveal_request_count = sampleCardSession.explicit_reveal_request_count + 1
    ∧ (send_message sampleCardSession "tell me the answer" .raised).2.2 = false
    ∧ (send_message { sampleCardSession with explicit_reveal_request_count := 1 }
        "tell me the answer" .raised).2.2 = true := by
  refine ⟨(C8_reveal_threshold sampleCardSession "tell me the answer" .raised).1 (by decide),
    ?_, ?_⟩
  · have h := (C8_reveal_threshold sampleCardSession "tell me the answer"
      .raised).2.2.1 rfl
    rcases hb : (send_message sampleCardSession "tell me the answer" .raised).2.2 with _ | _
    · rfl
    · exact absurd (h.1 hb) (by decide)
  · exact ((C8_reveal_threshold { sampleCardSession with explicit_reveal_request_count := 1 }
      "tell me the answer" .raised).2.2.1 rfl).2 (by decide)

/-! ## Claim theorems (due-date policy and ISO time round-trip) -/

/-- **C1.** Applying a review grade at time `T` sets the card's `dueAt` to the
ISO rendering of exactly `T` plus the grade's fixed offset (2 min / 10 min /
24 h / 4 days), computed by true Gregorian calendar arithmetic (so day and
month rollovers are exact), and parsing the stored `dueAt` back recovers
exactly `T + offset`; for any grade string outside {again, hard, good, easy}
the due-date computation raises an invalid-input error. -/
theorem C1_due_date_policy (now : PyDatetime) (card : Card) (g : Grade) (gs : String)
    (hv : now.IsValid) (htz : now.tz_offset_minutes = some 0)
    (hmicro : now.microsecond = 0) (hy1 : 1 ≤ now.year) (hy2 : now.year ≤ 9994)
    (hgs : gs ≠ "again" ∧ gs ≠ "hard" ∧ gs ≠ "good" ∧ gs ≠ "easy") :
    (apply_review_grade card g now).dueAt =
        utc_datetime_to_iso_z (addSeconds now (gradeOffsetSeconds g))
    ∧ parse_iso_z ((apply_review_grade card g now).dueAt) =
        some (addSeconds now (gradeOffsetSeconds g))
    ∧ isError (_due_at_for_grade now gs) = true := by
  have hdue : _due_at_for_grade now g.toStr =
      .ok (utc_datetime_to_iso_z (addSeconds now (gradeOffsetSeconds g))) := by
    cases g <;> rfl
  have hdueAt : (apply_review_grade card g now).dueAt =
      utc_datetime_to_iso_z (addSeconds now (gradeOffsetSeconds g)) := by
    show (match _due_at_for_grade now g.toStr with
      | .ok d => d
      | .error _ => card.dueAt) = _
    rw [hdue]
  have hoff : 0 ≤ gradeOffsetSeconds g ∧ gradeOffsetSeconds g ≤ 345600 := by
    cases g <;> exact ⟨by decide, by decide⟩
  have hyb := addSeconds_year_bound now (gradeOffsetSeconds g) hoff.1 hoff.2 hv
  have hrt := parse_format_roundtrip (addSeconds now (gradeOffsetSeconds g))
    (addSeconds_valid now (gradeOffsetSeconds g) hv)
    (by rw [addSeconds_tz, htz]) (by rw [addSeconds_micro, hmicro])
    (by omega) (by omega)
  refine ⟨hdueAt, ?_, ?_⟩
  · rw [hdueAt]
    exact hrt.1
  · obtain ⟨h1, h2, h3, h4⟩ := hgs
    simp [_due_at_for_grade, h1, h2, h3, h4, isError]

/-- Witness for C1: grading at 2026-01-31T23:59:00Z. `again` lands at
2026-02-01T00:01:00Z and `easy` at 2026-02-04T23:59:00Z (month rollover), the
stored `dueAt` parses back to exactly `T + offset`, and the unknown grade
string "excellent" is rejected. -/
theorem C1_due_date_policy_witness :
    (apply_review_grade sampleCard .again sampleNow).dueAt = "2026-02-01T00:01:00Z"
    ∧ (apply_review_grade sampleCard .easy sampleNow).dueAt = "2026-02-04T23:59:00Z"
    ∧ parse_iso_z ((apply_review_grade sampleCard .easy sampleNow).dueAt) =
        some (addSeconds sampleNow 345600)
    ∧ isError (_due_at_for_grade sampleNow "excellent") = true := by
  have h := C1_due_date_policy sampleNow sampleCard .easy "excellent"
    (by decide) rfl rfl (by decide) (by decide)
    ⟨by decide, by decide, by decide, by decide⟩
  exact ⟨by decide, by decide, h.2.1, h.2.2⟩

/-- **C10.** For a timezone-aware valid datetime (whose UTC conversion stays in
the representable year range), `utc_datetime_to_iso_z` produces a 20-character
second-precision ISO string ending in `'Z'`, and `parse_iso_z` of that string
recovers exactly the datetime converted to UTC with its microseconds dropped
— so every timestamp the core stores is truncated to whole seconds. -/
theorem C10_iso_z_roundtrip (dd : PyDatetime) (o : ℤ) (hv : dd.IsValid)
    (ho : dd.tz_offset_minutes = some o)
    (hy1 : 1 ≤ (astimezoneUtc dd).year) (hy2 : (astimezoneUtc dd).year ≤ 9999) :
    (utc_datetime_to_iso_z dd).toList.length = 20
    ∧ (utc_datetime_to_iso_z dd).toList.getLast? = some 'Z'
    ∧ parse_iso_z (utc_datetime_to_iso_z dd) =
        some { astimezoneUtc dd with microsecond := 0 } := by
  have hca : astimezoneUtc dd =
      { addSeconds dd (-(60 * o)) with tz_offset_minutes := some 0 } := by
    unfold astimezoneUtc
    rw [ho]
  have hvs := addSeconds_valid dd (-(60 * o)) hv
  have huv : PyDatetime.IsValid { astimezoneUtc dd with microsecond := 0 } := by
    rw [hca]
    obtain ⟨hd, hh, hmi, hs, -⟩ := hvs
    exact ⟨hd, hh, hmi, hs, by norm_num⟩
  have hutz : ({ astimezoneUtc dd with microsecond := 0 }).tz_offset_minutes = some 0 := by
    rw [hca]
  have hfmt : utc_datetime_to_iso_z dd =
      String.mk (isoCharsNoOffset { astimezoneUtc dd with microsecond := 0 } ++ ['Z']) := by
    unfold utc_datetime_to_iso_z
    dsimp only
    rw [ho]
  have hy1' : 1 ≤ ({ astimezoneUtc dd with microsecond := 0 }).year := hy1
  have hy2' : ({ astimezoneUtc dd with microsecond := 0 }).year ≤ 9999 := hy2
  have hrt := parse_format_roundtrip { astimezoneUtc dd with microsecond := 0 }
    huv hutz rfl hy1' hy2'
  have hsame : utc_datetime_to_iso_z dd =
      utc_datetime_to_iso_z { astimezoneUtc dd with microsecond := 0 } := by
    rw [hfmt, hrt.2]
  refine ⟨?_, ?_, ?_⟩
  · rw [hfmt]
    show (isoCharsNoOffset { astimezoneUtc dd with microsecond := 0 } ++ ['Z']).length = 20
    have hm0 : ({ astimezoneUtc dd with microsecond := 0 }).microsecond = 0 := rfl
    simp [isoCharsNoOffset, pad4, pad2, hm0]
  · rw [hfmt]
    show (isoCharsNoOffset { astimezoneUtc dd with microsecond := 0 } ++ ['Z']).getLast? =
      some 'Z'
    exact List.getLast?_concat _
  · rw [hsame]
    exact hrt.1

/-- Witness for C10 at 2025-12-31T19:30:00.250000-05:00: the rendering is the
20-character "2026-01-01T00:30:00Z" (year rollover under UTC conversion) and
parses back to the UTC instant with microseconds dropped. -/
theorem C10_iso_z_roundtrip_witness :
    utc_datetime_to_iso_z sampleAware = "2026-01-01T00:30:00Z"
    ∧ (utc_datetime_to_iso_z sampleAware).toList.length = 20
    ∧ parse_iso_z (utc_datetime_to_iso_z sampleAware) =
        some { astimezoneUtc sampleAware with microsecond := 0 } := by
  have h := C10_iso_z_roundtrip sampleAware (-300) (by decide) rfl (by decide) (by decide)
  exact ⟨by decide, h.1, h.2.2⟩

end EchoApp
